import Mathlib

/-!
# Verification of the Realtek MST (RTD2142) firmware-update core

Shallow embedding of `plugins/realtek-mst/fu-realtek-mst-device.c` (the
register-level variant that implements the flash interface directly).

Modelling conventions:
* Every I²C register operation performed by the code is reified as an
  `MstOp`; each flash-interface C function becomes a Lean function that
  emits the exact list of operations it performs, in order.
* `guint8` truncation at `mst_write_register` call sites is `% 256`
  (`toU8`); `guint32` wraparound subtraction is explicit (`u32_sub1`);
  the C mask `& 0xFFFFFF` is `% 0x1000000`.
* `g_return_val_if_fail` precondition failures are `Option.none`
  (the C function returns FALSE before doing any I/O).
* I/O errors and poll timeouts are assumed absent for the trace-emitting
  functions; `mst_poll_register` itself is modelled separately, driven by
  a list of (monotonic-clock, register-value) samples.
-/

namespace RealtekMst

/-! ## Register map and constants (from the C `#define`s) -/

def REG_CMD_ATTR : Nat := 0x60
def CMD_ERASE_BUSY : Nat := 0x01
def REG_ERASE_OPCODE : Nat := 0x61
def CMD_OPCODE_ERASE_SECTOR : Nat := 0x20
def CMD_OPCODE_ERASE_BLOCK : Nat := 0xD8
def REG_CMD_ADDR_HI : Nat := 0x64
def REG_CMD_ADDR_MID : Nat := 0x65
def REG_CMD_ADDR_LO : Nat := 0x66
def REG_READ_OPCODE : Nat := 0x6A
def CMD_OPCODE_READ : Nat := 0x03
def REG_WRITE_OPCODE : Nat := 0x6D
def REG_MCU_MODE : Nat := 0x6F
def MCU_MODE_ISP : Nat := 0x80
def MCU_MODE_WRITE_BUSY : Nat := 0x20
def MCU_MODE_WRITE_BUF : Nat := 0x10
def REG_WRITE_FIFO : Nat := 0x70
def REG_WRITE_LEN : Nat := 0x71

def FLASH_SIZE : Nat := 0x100000
def FLASH_USER1_ADDR : Nat := 0x10000
def FLASH_FLAG1_ADDR : Nat := 0xfe304
def FLASH_USER2_ADDR : Nat := 0x80000
def FLASH_FLAG2_ADDR : Nat := 0xff304
def FLASH_USER_SIZE : Nat := 0x70000

def SECTOR_SIZE : Nat := 4096
def BLOCK_SIZE : Nat := 65536

def DUAL_BANK_DIFF : Nat := 1
def DUAL_BANK_MAX_VALUE : Nat := 3
def FLASH_BANK_MAX_VALUE : Nat := 2

/-- Truncation of a wider C expression to a `guint8` parameter. -/
def toU8 (n : Nat) : Nat := n % 256

/-- `x - 1` on a `guint32`, with wraparound. -/
def u32_sub1 (x : Nat) : Nat := (x + 0xFFFFFFFF) % 0x100000000

/-! ## Operation traces -/

/-- One I²C-level operation issued by the driver.  `writeReg` is
`mst_write_register` (a 2-byte transaction), `writeRegMulti` is
`mst_write_register_multi` (a burst), `readReg` is `mst_read_register`,
`rawWrite`/`rawRead` are bare `fu_udev_device_pwrite`/`pread` calls, and
`pollReg` stands for a (successful) `mst_poll_register` call. -/
inductive MstOp where
  | writeReg (addr val : Nat)
  | writeRegMulti (addr : Nat) (data : List Nat)
  | readReg (addr : Nat)
  | rawWrite (b : Nat)
  | rawRead (n : Nat)
  | pollReg (addr mask expected timeoutSeconds : Nat)
deriving DecidableEq, Repr

/-! ## `flash_iface_read` -/

/-- The read loop: `read up to 256 bytes in one transaction` until
`buf_size` bytes have been read. -/
def read_chunk_ops (remaining : Nat) : List MstOp :=
  if h : remaining = 0 then []
  else
    let read_len := if remaining > 256 then 256 else remaining
    MstOp.rawRead read_len :: read_chunk_ops (remaining - read_len)
termination_by remaining
decreasing_by
  split <;> omega

/-- The leading-discard start address: C computes
`address = (address - 1) & 0xFFFFFF` on a `guint32`. -/
def read_start_address (address : Nat) : Nat :=
  u32_sub1 address % 0x1000000

/-- Register script of `flash_iface_read` (body after the
`g_return_val_if_fail` guards). -/
def flash_iface_read_script (address : Nat) (buf_size : Nat) : List MstOp :=
  let a := read_start_address address
  [MstOp.writeReg REG_CMD_ADDR_HI (toU8 (a / 0x10000)),
   MstOp.writeReg REG_CMD_ADDR_MID (toU8 (a / 0x100)),
   MstOp.writeReg REG_CMD_ADDR_LO (toU8 a),
   MstOp.writeReg REG_READ_OPCODE CMD_OPCODE_READ,
   MstOp.rawWrite 0x70,
   MstOp.rawRead 1]
  ++ read_chunk_ops buf_size

/-- `flash_iface_read`: `none` exactly when a `g_return_val_if_fail`
precondition fails (the function returns FALSE before any register I/O). -/
def flash_iface_read_ops (address : Nat) (buf_size : Nat) : Option (List MstOp) :=
  if address < FLASH_SIZE ∧ buf_size ≤ FLASH_SIZE then
    some (flash_iface_read_script address buf_size)
  else
    none

/-! ## `flash_iface_erase_sector` / `flash_iface_erase_block` -/

/-- Register script of `flash_iface_erase_sector` (after the alignment
guard). -/
def flash_iface_erase_sector_script (address : Nat) : List MstOp :=
  [MstOp.writeReg REG_CMD_ADDR_HI (toU8 (address / 0x10000)),
   MstOp.writeReg REG_CMD_ADDR_MID (toU8 (address / 0x100)),
   MstOp.writeReg REG_CMD_ADDR_LO (toU8 address),
   MstOp.writeReg REG_CMD_ATTR 0xB8,
   MstOp.writeReg REG_ERASE_OPCODE CMD_OPCODE_ERASE_SECTOR,
   MstOp.writeReg REG_CMD_ATTR (0xB8 ||| CMD_ERASE_BUSY),
   MstOp.pollReg REG_CMD_ATTR CMD_ERASE_BUSY 0 10]

/-- `flash_iface_erase_sector`: requires `(address & 0xFFF) == 0`. -/
def flash_iface_erase_sector_ops (address : Nat) : Option (List MstOp) :=
  if address % 0x1000 = 0 then
    some (flash_iface_erase_sector_script address)
  else
    none

/-- Register script of `flash_iface_erase_block` (after the alignment
guard): the MID and LO address bytes are written as zero. -/
def flash_iface_erase_block_script (address : Nat) : List MstOp :=
  [MstOp.writeReg REG_CMD_ADDR_HI (toU8 (address / 0x10000)),
   MstOp.writeReg REG_CMD_ADDR_MID 0,
   MstOp.writeReg REG_CMD_ADDR_LO 0,
   MstOp.writeReg REG_CMD_ATTR 0xB8,
   MstOp.writeReg REG_ERASE_OPCODE CMD_OPCODE_ERASE_BLOCK,
   MstOp.writeReg REG_CMD_ATTR (0xB8 ||| CMD_ERASE_BUSY),
   MstOp.pollReg REG_CMD_ATTR CMD_ERASE_BUSY 0 10]

/-- `flash_iface_erase_block`: requires `(address & 0xFFFF) == 0`. -/
def flash_iface_erase_block_ops (address : Nat) : Option (List MstOp) :=
  if address % 0x10000 = 0 then
    some (flash_iface_erase_block_script address)
  else
    none

/-! ## `flash_iface_write` -/

/-- Register script of one iteration of the `flash_iface_write` loop, for
one chunk (`chunk = data.take chunk_size`, so `chunk.length` is the C
`chunk_size`). -/
def flash_iface_write_chunk_script (address : Nat) (chunk : List Nat) : List MstOp :=
  [MstOp.writeReg REG_WRITE_OPCODE 0x02,
   MstOp.writeReg REG_WRITE_LEN (toU8 (chunk.length - 1)),
   MstOp.writeReg REG_CMD_ADDR_HI (toU8 (address / 0x10000)),
   MstOp.writeReg REG_CMD_ADDR_MID (toU8 (address / 0x100)),
   MstOp.writeReg REG_CMD_ADDR_LO (toU8 address),
   MstOp.pollReg REG_MCU_MODE MCU_MODE_WRITE_BUF 0 10,
   MstOp.writeRegMulti REG_WRITE_FIFO chunk,
   MstOp.writeReg REG_MCU_MODE (MCU_MODE_ISP ||| MCU_MODE_WRITE_BUSY),
   MstOp.pollReg REG_MCU_MODE MCU_MODE_WRITE_BUSY 0 10]

/-- `flash_iface_write`: the `while (remaining_size > 0)` loop, with
`chunk_size = remaining_size > 256 ? 256 : remaining_size`. -/
def flash_iface_write_ops (address : Nat) (data : List Nat) : List MstOp :=
  if h : data = [] then []
  else
    let chunk_size := if data.length > 256 then 256 else data.length
    flash_iface_write_chunk_script address (data.take chunk_size)
      ++ flash_iface_write_ops (address + chunk_size) (data.drop chunk_size)
termination_by data.length
decreasing_by
  simp only [List.length_drop, chunk_size]
  have : data.length ≠ 0 := fun hn => h (List.eq_nil_of_length_eq_zero hn)
  split <;> omega

/-! ## `fu_realtek_mst_device_write_firmware` -/

/-- `enum flash_bank`. -/
inductive FlashBank where
  | boot
  | user1
  | user2
  | invalid
deriving DecidableEq, Repr

/-- `self->active_bank == FLASH_BANK_USER1 ? FLASH_USER2_ADDR : FLASH_USER1_ADDR`. -/
def target_base (active_bank : FlashBank) : Nat :=
  if active_bank = FlashBank.user1 then FLASH_USER2_ADDR else FLASH_USER1_ADDR

/-- `self->active_bank == FLASH_BANK_USER1 ? FLASH_FLAG2_ADDR : FLASH_FLAG1_ADDR`. -/
def target_flag (active_bank : FlashBank) : Nat :=
  if active_bank = FlashBank.user1 then FLASH_FLAG2_ADDR else FLASH_FLAG1_ADDR

/-- Offsets visited by the C loop `for (o = start; o < limit; o += step)`. -/
def c_for_loop_offsets (start limit step : Nat) : List Nat :=
  if h : start < limit ∧ 0 < step then
    start :: c_for_loop_offsets (start + step) limit step
  else
    []
termination_by limit - start
decreasing_by omega

/-- One block erase of `base_addr + offset` per loop offset, failing if
any alignment guard fires. -/
def write_firmware_erase_ops_go (base_addr : Nat) : List Nat → Option (List MstOp)
  | [] => some []
  | offset :: rest =>
    match flash_iface_erase_block_ops (base_addr + offset) with
    | none => none
    | some ops => (write_firmware_erase_ops_go base_addr rest).map (ops ++ ·)

/-- The erase phase of `write_firmware`, exactly as written:
`for (guint32 offset = 0; offset < FLASH_USER_SIZE; offset += FLASH_USER_SIZE)`
with a block erase of `base_addr + offset` per iteration. -/
def write_firmware_erase_ops (base_addr : Nat) : Option (List MstOp) :=
  write_firmware_erase_ops_go base_addr
    (c_for_loop_offsets 0 FLASH_USER_SIZE FLASH_USER_SIZE)

/-- The fixed 5-byte flag record `{0xaa, 0xaa, 0xaa, 0xff, 0xff}`. -/
def flag_data : List Nat := [0xaa, 0xaa, 0xaa, 0xff, 0xff]

inductive MstError where
  | writeError (message : String)
  | needsUserAction (message : String)
deriving DecidableEq, Repr

/-- The operations of one `write_firmware` call, phase by phase (the
phases run in this order; `allOps` is the flat trace).  `flagEraseOps`
and `flagWriteOps` are empty when the call failed before reaching them. -/
structure WriteFwTrace where
  eraseOps : List MstOp
  writeOps : List MstOp
  verifyOps : List MstOp
  flagEraseOps : List MstOp
  flagWriteOps : List MstOp
  error : Option MstError
deriving DecidableEq, Repr

def WriteFwTrace.allOps (t : WriteFwTrace) : List MstOp :=
  t.eraseOps ++ t.writeOps ++ t.verifyOps ++ t.flagEraseOps ++ t.flagWriteOps

/-- `fu_realtek_mst_device_write_firmware`.  Inputs beyond the device's
`active_bank`: the firmware blob and the bytes the verify read-back
returns.  `none` models a `g_return_val_if_fail` failure (firmware size
mismatch; the alignment guards inside the erase helpers cannot fire on
these inputs, as proved below).  `readback ≠ firmware` is `memcmp != 0`
over the `FLASH_USER_SIZE`-byte buffers. -/
def fu_realtek_mst_device_write_firmware (active_bank : FlashBank)
    (firmware readback : List Nat) : Option WriteFwTrace :=
  if firmware.length = FLASH_USER_SIZE then
    let base_addr := target_base active_bank
    let flag_addr := target_flag active_bank
    match write_firmware_erase_ops base_addr with
    | none => none
    | some eraseOps =>
      let writeOps := flash_iface_write_ops base_addr firmware
      match flash_iface_read_ops base_addr FLASH_USER_SIZE with
      | none => none
      | some verifyOps =>
        if readback ≠ firmware then
          some ⟨eraseOps, writeOps, verifyOps, [], [],
                some (MstError.writeError
                  "flash contents after write do not match firmware image")⟩
        else
          /- `flag_addr & ~(SECTOR_SIZE - 1)`: low 12 bits cleared. -/
          match flash_iface_erase_sector_ops (flag_addr / SECTOR_SIZE * SECTOR_SIZE) with
          | none => none
          | some flagEraseOps =>
            some ⟨eraseOps, writeOps, verifyOps, flagEraseOps,
                  flash_iface_write_ops flag_addr flag_data, none⟩
  else
    none

/-- Number of `mst_write_register` operations in `ops` that target
register `r`. -/
def countRegWrites (ops : List MstOp) (r : Nat) : Nat :=
  (ops.filter fun op => match op with
    | MstOp.writeReg a _ => a == r
    | _ => false).length

/-! ## `mst_poll_register` -/

/-- A `struct timespec` as returned by `clock_gettime(CLOCK_MONOTONIC)`
(normalised, `nsec < 10^9`). -/
structure Timespec where
  sec : Nat
  nsec : Nat
deriving DecidableEq, Repr

/-- The C loop's deadline comparison:
`now.tv_sec < deadline.tv_sec || (now.tv_sec == deadline.tv_sec && now.tv_nsec <= deadline.tv_nsec)`. -/
def Timespec.le (a b : Timespec) : Bool :=
  a.sec < b.sec || (a.sec == b.sec && a.nsec ≤ b.nsec)

/-- One iteration's observations: the monotonic clock value current when
the register is read, and the value read.  The first sample's clock is
the one taken before the first read (it is also the base of the
deadline); each later sample's clock is taken by the loop right before
re-reading the register, after the 1 ms inter-poll sleep. -/
structure PollSample where
  now : Timespec
  value : Nat
deriving DecidableEq, Repr

def pollDefault : PollSample := ⟨⟨0, 0⟩, 0⟩

inductive PollResult where
  | ok : PollResult
  | timeoutError (address value timeoutSeconds expected mask : Nat) : PollResult
  | outOfSamples : PollResult
deriving DecidableEq, Repr

/-- The `while` loop of `mst_poll_register` plus the final check: for the
sample at hand, if `(value & mask) == expected` the poll succeeds; if not
and the deadline has not passed, loop (1 ms sleep, re-read clock and
register — i.e. move to the next sample); otherwise fail with the timeout
error built from the current (last-read) value.  `outOfSamples` is a
model artifact for a trace too short to decide the outcome. -/
def mst_poll_register_go (address mask expected timeoutSeconds : Nat)
    (deadline : Timespec) : List PollSample → PollResult
  | [] => PollResult.outOfSamples
  | s :: rest =>
    if s.value &&& mask = expected then PollResult.ok
    else if Timespec.le s.now deadline then
      mst_poll_register_go address mask expected timeoutSeconds deadline rest
    else
      PollResult.timeoutError address s.value timeoutSeconds expected mask

/-- `mst_poll_register`: the absolute monotonic deadline is computed once
from the initial clock reading as
`{ tv_sec = now.tv_sec + timeout_seconds, tv_nsec = now.tv_nsec }`. -/
def mst_poll_register (address mask expected timeoutSeconds : Nat)
    (first : PollSample) (rest : List PollSample) : PollResult :=
  mst_poll_register_go address mask expected timeoutSeconds
    ⟨first.now.sec + timeoutSeconds, first.now.nsec⟩ (first :: rest)

/-- Index of the first `mst_write_register` operation targeting register
`r` in a script. -/
def regWriteIdx (ops : List MstOp) (r : Nat) : Option Nat :=
  ops.findIdx? fun op => match op with
    | MstOp.writeReg a _ => a == r
    | _ => false

/-- The C3 ordering property at one script: the three 24-bit address-byte
writes (`CMD_ADDR_HI/MID/LO`) all occur strictly before the first write
to register `r`. -/
def addrBytesBefore (ops : List MstOp) (r : Nat) : Bool :=
  match regWriteIdx ops REG_CMD_ADDR_HI, regWriteIdx ops REG_CMD_ADDR_MID,
        regWriteIdx ops REG_CMD_ADDR_LO, regWriteIdx ops r with
  | some i1, some i2, some i3, some j =>
      decide (i1 < j) && decide (i2 < j) && decide (i3 < j)
  | _, _, _, _ => false

/-! ## Flash device semantics

An interpreter for operation traces, modelling the chip's SPI-flash
command engine: the 24-bit command address registers, the erase opcode
and write-length registers, the write FIFO, and the flash array itself.
Writing `CMD_ATTR` with the `ERASE_BUSY` bit set executes the selected
erase (sector erase blanks the 4 KiB sector containing the command
address, block erase the 64 KiB block); writing `MCU_MODE` with
`WRITE_BUSY` set programs the FIFO contents (up to `WRITE_LEN + 1`
bytes) at the command address.  All other operations leave the flash
array untouched. -/

structure FlashState where
  flash : Nat → Nat
  addrHi : Nat
  addrMid : Nat
  addrLo : Nat
  eraseOpcode : Nat
  writeLen : Nat
  fifo : List Nat

def FlashState.cmdAddr (s : FlashState) : Nat :=
  s.addrHi * 0x10000 + s.addrMid * 0x100 + s.addrLo

def applyOp (s : FlashState) (op : MstOp) : FlashState :=
  match op with
  | MstOp.writeReg r v =>
    if r = REG_CMD_ADDR_HI then { s with addrHi := v }
    else if r = REG_CMD_ADDR_MID then { s with addrMid := v }
    else if r = REG_CMD_ADDR_LO then { s with addrLo := v }
    else if r = REG_ERASE_OPCODE then { s with eraseOpcode := v }
    else if r = REG_WRITE_LEN then { s with writeLen := v }
    else if r = REG_CMD_ATTR then
      if v &&& CMD_ERASE_BUSY ≠ 0 then
        if s.eraseOpcode = CMD_OPCODE_ERASE_SECTOR then
          { s with flash := fun x =>
              if x / SECTOR_SIZE = s.cmdAddr / SECTOR_SIZE then 0xFF else s.flash x }
        else if s.eraseOpcode = CMD_OPCODE_ERASE_BLOCK then
          { s with flash := fun x =>
              if x / BLOCK_SIZE = s.cmdAddr / BLOCK_SIZE then 0xFF else s.flash x }
        else s
      else s
    else if r = REG_MCU_MODE then
      if v &&& MCU_MODE_WRITE_BUSY ≠ 0 then
        { s with flash := fun x =>
            if s.cmdAddr ≤ x ∧ x < s.cmdAddr + min s.fifo.length (s.writeLen + 1) then
              s.fifo.getD (x - s.cmdAddr) 0
            else s.flash x }
      else s
    else s
  | MstOp.writeRegMulti r data =>
    if r = REG_WRITE_FIFO then { s with fifo := data } else s
  | _ => s

def runOps (s : FlashState) (ops : List MstOp) : FlashState :=
  ops.foldl applyOp s

/-- The flash region belonging to the *active* user bank: its image
region together with its 5-byte flag record.  Empty for the boot bank
(and for an invalid probe). -/
def inActiveUserRegion (active_bank : FlashBank) (x : Nat) : Prop :=
  match active_bank with
  | FlashBank.user1 =>
      (FLASH_USER1_ADDR ≤ x ∧ x < FLASH_USER1_ADDR + FLASH_USER_SIZE) ∨
      (FLASH_FLAG1_ADDR ≤ x ∧ x < FLASH_FLAG1_ADDR + 5)
  | FlashBank.user2 =>
      (FLASH_USER2_ADDR ≤ x ∧ x < FLASH_USER2_ADDR + FLASH_USER_SIZE) ∨
      (FLASH_FLAG2_ADDR ≤ x ∧ x < FLASH_FLAG2_ADDR + 5)
  | _ => False

/-- A concrete well-sized firmware blob (0x70000 bytes of 0xA5), used to
instantiate theorems at concrete inputs. -/
def sampleFirmware : List Nat := List.replicate FLASH_USER_SIZE 0xA5

/-! ## `fu_realtek_mst_device_attach`

Register I/O is abstracted to the values the device returns (reads are
assumed to succeed; `mst_set_gpio88(self, 0)` performs read-modify-write
cycles on the two GPIO registers and cannot change the control flow on
success, so it contributes no field here).  `eeWriteOk` records whether
the 0xEE reset write was NACKed; the C code passes `NULL` as the error
out-parameter for exactly this write, so the outcome may not depend on
it. -/

structure AttachInputs where
  mcuMode1 : Nat
  eeValue : Nat
  eeWriteOk : Bool
  mcuMode2 : Nat
deriving DecidableEq, Repr

structure AttachOutcome where
  resetRequested : Bool
  eeWritten : Option Nat
  sleptUs : Nat
  error : Option MstError
  needsShutdownAdded : Bool
  isBootloaderCleared : Bool
  statusIdleSet : Bool
deriving DecidableEq, Repr

/-- `fu_realtek_mst_device_attach` after the (successful) GPIO-88 low
write and first `MCU_MODE` read. -/
def fu_realtek_mst_device_attach (inp : AttachInputs) : AttachOutcome :=
  if inp.mcuMode1 &&& MCU_MODE_ISP ≠ 0 then
    if inp.mcuMode2 &&& MCU_MODE_ISP = MCU_MODE_ISP then
      { resetRequested := true, eeWritten := some (inp.eeValue ||| 2),
        sleptUs := 1000000,
        error := some (MstError.needsUserAction
          "device failed to reset when requested"),
        needsShutdownAdded := true, isBootloaderCleared := false,
        statusIdleSet := false }
    else
      { resetRequested := true, eeWritten := some (inp.eeValue ||| 2),
        sleptUs := 1000000, error := none, needsShutdownAdded := false,
        isBootloaderCleared := true, statusIdleSet := true }
  else
    { resetRequested := false, eeWritten := none, sleptUs := 0,
      error := none, needsShutdownAdded := false,
      isBootloaderCleared := true, statusIdleSet := true }

/-! ## Dual-bank decode and version probe -/

/-- Result of `fu_realtek_mst_device_get_dual_bank_info` on an 11-byte
response (assuming the I²C transfer itself succeeded).  The C function
sets `is_enabled = FALSE` and returns early — leaving the remaining
struct fields unset — on a header mismatch, an enable byte other than 1,
a mode value above `DUAL_BANK_MAX_VALUE`, or a bank value above
`FLASH_BANK_MAX_VALUE`; all of those collapse to `notEnabled`. -/
inductive DualBankDecode where
  | notEnabled : DualBankDecode
  | enabled (mode active_bank : Nat) (user1_version user2_version : Nat × Nat) :
      DualBankDecode
deriving DecidableEq, Repr

def fu_realtek_mst_device_get_dual_bank_info (response : List Nat) : DualBankDecode :=
  if response.getD 0 0 ≠ 0xca ∨ response.getD 1 0 ≠ 9 then
    DualBankDecode.notEnabled
  else if response.getD 2 0 ≠ 1 then
    DualBankDecode.notEnabled
  else if response.getD 3 0 > DUAL_BANK_MAX_VALUE then
    DualBankDecode.notEnabled
  else if response.getD 4 0 > FLASH_BANK_MAX_VALUE then
    DualBankDecode.notEnabled
  else
    DualBankDecode.enabled (response.getD 3 0) (response.getD 4 0)
      (response.getD 5 0, response.getD 6 0)
      (response.getD 7 0, response.getD 8 0)

/-- The device state that `probe_version` (the `setup`/`reload` hook)
reads and writes: the UPDATABLE flag, the recorded active bank, and the
published version string. -/
structure ProbeState where
  updatable : Bool
  active_bank : FlashBank
  version : Option String
deriving DecidableEq, Repr

def bankOfNat (n : Nat) : FlashBank :=
  if n = 0 then FlashBank.boot
  else if n = 1 then FlashBank.user1
  else if n = 2 then FlashBank.user2
  else FlashBank.invalid

/-- `g_strdup_printf("%u.%u", major, minor)`. -/
def versionString (v : Nat × Nat) : String :=
  toString v.1 ++ "." ++ toString v.2

/-- `fu_realtek_mst_device_probe_version` (assuming the dual-bank query
I/O succeeds).  The incoming state is pre-cleared unconditionally. -/
def fu_realtek_mst_device_probe_version (response : List Nat)
    (s0 : ProbeState) : ProbeState :=
  let s := ProbeState.mk false FlashBank.invalid none
  match fu_realtek_mst_device_get_dual_bank_info response with
  | DualBankDecode.notEnabled => s
  | DualBankDecode.enabled mode bank u1 u2 =>
    if mode ≠ DUAL_BANK_DIFF then s
    else
      let s1 := ProbeState.mk true (bankOfNat bank) none
      if bank = 1 then { s1 with version := some (versionString u1) }
      else if bank = 2 then { s1 with version := some (versionString u2) }
      else s1

/-! ## Structural equations for the sequencer -/

theorem flash_iface_write_ops_nil (address : Nat) :
    flash_iface_write_ops address [] = [] := by
  rw [flash_iface_write_ops, dif_pos rfl]

theorem flash_iface_write_ops_step (address : Nat) (data : List Nat)
    (hne : data ≠ []) :
    flash_iface_write_ops address data =
      flash_iface_write_chunk_script address
          (data.take (if data.length > 256 then 256 else data.length))
        ++ flash_iface_write_ops
            (address + (if data.length > 256 then 256 else data.length))
            (data.drop (if data.length > 256 then 256 else data.length)) := by
  rw [flash_iface_write_ops, dif_neg hne]

theorem flash_iface_write_ops_single (address : Nat) (data : List Nat)
    (hne : data ≠ []) (hle : data.length ≤ 256) :
    flash_iface_write_ops address data =
      flash_iface_write_chunk_script address data := by
  have hif : (if data.length > 256 then 256 else data.length) = data.length :=
    if_neg (by omega)
  rw [flash_iface_write_ops_step address data hne, hif,
      List.take_of_length_le (le_refl _), List.drop_of_length_le (le_refl _),
      flash_iface_write_ops_nil, List.append_nil]

theorem c_for_loop_offsets_as_written :
    c_for_loop_offsets 0 FLASH_USER_SIZE FLASH_USER_SIZE = [0] := by
  rw [c_for_loop_offsets, dif_pos (by norm_num [FLASH_USER_SIZE]),
      c_for_loop_offsets, dif_neg (by norm_num [FLASH_USER_SIZE])]

theorem c_for_loop_offsets_per_block :
    c_for_loop_offsets 0 FLASH_USER_SIZE BLOCK_SIZE =
      [0x00000, 0x10000, 0x20000, 0x30000, 0x40000, 0x50000, 0x60000] := by
  rw [c_for_loop_offsets, dif_pos (by norm_num [FLASH_USER_SIZE, BLOCK_SIZE])]
  rw [c_for_loop_offsets, dif_pos (by norm_num [FLASH_USER_SIZE, BLOCK_SIZE])]
  rw [c_for_loop_offsets, dif_pos (by norm_num [FLASH_USER_SIZE, BLOCK_SIZE])]
  rw [c_for_loop_offsets, dif_pos (by norm_num [FLASH_USER_SIZE, BLOCK_SIZE])]
  rw [c_for_loop_offsets, dif_pos (by norm_num [FLASH_USER_SIZE, BLOCK_SIZE])]
  rw [c_for_loop_offsets, dif_pos (by norm_num [FLASH_USER_SIZE, BLOCK_SIZE])]
  rw [c_for_loop_offsets, dif_pos (by norm_num [FLASH_USER_SIZE, BLOCK_SIZE])]
  rw [c_for_loop_offsets, dif_neg (by norm_num [FLASH_USER_SIZE, BLOCK_SIZE])]
  norm_num [FLASH_USER_SIZE, BLOCK_SIZE]

theorem write_firmware_erase_ops_eq (base : Nat) (h : base % 0x10000 = 0) :
    write_firmware_erase_ops base = some (flash_iface_erase_block_script base) := by
  rw [write_firmware_erase_ops, c_for_loop_offsets_as_written]
  simp [write_firmware_erase_ops_go, flash_iface_erase_block_ops, h]

theorem write_firmware_eq_mismatch (active_bank : FlashBank) (fw rb : List Nat)
    (hlen : fw.length = FLASH_USER_SIZE) (hne : rb ≠ fw) :
    fu_realtek_mst_device_write_firmware active_bank fw rb =
      some ⟨flash_iface_erase_block_script (target_base active_bank),
            flash_iface_write_ops (target_base active_bank) fw,
            flash_iface_read_script (target_base active_bank) FLASH_USER_SIZE,
            [], [],
            some (MstError.writeError
              "flash contents after write do not match firmware image")⟩ := by
  have herase : write_firmware_erase_ops (target_base active_bank) =
      some (flash_iface_erase_block_script (target_base active_bank)) :=
    write_firmware_erase_ops_eq _ (by cases active_bank <;> decide)
  have hread : flash_iface_read_ops (target_base active_bank) FLASH_USER_SIZE =
      some (flash_iface_read_script (target_base active_bank) FLASH_USER_SIZE) := by
    rw [flash_iface_read_ops, if_pos (by cases active_bank <;> decide)]
  rw [fu_realtek_mst_device_write_firmware, if_pos hlen]
  simp only [herase, hread]
  simp [hne]

theorem write_firmware_eq_verified (active_bank : FlashBank) (fw : List Nat)
    (hlen : fw.length = FLASH_USER_SIZE) :
    fu_realtek_mst_device_write_firmware active_bank fw fw =
      some ⟨flash_iface_erase_block_script (target_base active_bank),
            flash_iface_write_ops (target_base active_bank) fw,
            flash_iface_read_script (target_base active_bank) FLASH_USER_SIZE,
            flash_iface_erase_sector_script
              (target_flag active_bank / SECTOR_SIZE * SECTOR_SIZE),
            flash_iface_write_ops (target_flag active_bank) flag_data,
            none⟩ := by
  have herase : write_firmware_erase_ops (target_base active_bank) =
      some (flash_iface_erase_block_script (target_base active_bank)) :=
    write_firmware_erase_ops_eq _ (by cases active_bank <;> decide)
  have hread : flash_iface_read_ops (target_base active_bank) FLASH_USER_SIZE =
      some (flash_iface_read_script (target_base active_bank) FLASH_USER_SIZE) := by
    rw [flash_iface_read_ops, if_pos (by cases active_bank <;> decide)]
  have hsector : flash_iface_erase_sector_ops
      (target_flag active_bank / SECTOR_SIZE * SECTOR_SIZE) =
      some (flash_iface_erase_sector_script
        (target_flag active_bank / SECTOR_SIZE * SECTOR_SIZE)) := by
    rw [flash_iface_erase_sector_ops, if_pos (by cases active_bank <;> decide)]
  rw [fu_realtek_mst_device_write_firmware, if_pos hlen]
  simp only [herase, hread]
  simp [hsector]

/-! ## Claim C1 -/

/-- C1: the claim states that the erase phase of `write_firmware`
block-erases the whole 0x70000-byte region with seven 64 KiB block
erases at `base+0x00000 … base+0x60000`.  The code's erase loop steps
`offset` by `FLASH_USER_SIZE` instead of `BLOCK_SIZE`, so the loop body
runs exactly once: the erase phase of every `write_firmware` call is the
single block-erase script at the target base (one `ERASE_OPCODE` write,
not seven), while the offsets the claim mandates are the seven listed. -/
theorem C1_erase_phase_is_single_block_erase :
    c_for_loop_offsets 0 FLASH_USER_SIZE FLASH_USER_SIZE = [0] ∧
    c_for_loop_offsets 0 FLASH_USER_SIZE BLOCK_SIZE =
      [0x00000, 0x10000, 0x20000, 0x30000, 0x40000, 0x50000, 0x60000] ∧
    (∀ active_bank : FlashBank,
      write_firmware_erase_ops (target_base active_bank) =
        some (flash_iface_erase_block_script (target_base active_bank))) ∧
    (∀ active_bank : FlashBank,
      countRegWrites ((write_firmware_erase_ops (target_base active_bank)).getD [])
        REG_ERASE_OPCODE = 1) := by
  refine ⟨c_for_loop_offsets_as_written, c_for_loop_offsets_per_block, ?_, ?_⟩
  · intro active_bank
    exact write_firmware_erase_ops_eq _ (by cases active_bank <;> decide)
  · intro active_bank
    rw [write_firmware_erase_ops_eq _ (by cases active_bank <;> decide)]
    simp [flash_iface_erase_block_script, countRegWrites, REG_ERASE_OPCODE,
          REG_CMD_ADDR_HI, REG_CMD_ADDR_MID, REG_CMD_ADDR_LO, REG_CMD_ATTR]

/-! ## Claim C10 -/

/-- C10: `flash_iface_read` checks its two preconditions independently:
it fails (returning FALSE before issuing any register operation) when
`address ≥ FLASH_SIZE` or `buf_size > FLASH_SIZE`, and accepts every
call with `address < FLASH_SIZE` and `buf_size ≤ FLASH_SIZE`, even when
`address + buf_size` runs past the end of the 1 MiB flash: the concrete
call with `address = 0xFFFFF`, `buf_size = 0x100000` is accepted. -/
theorem C10_read_precondition_checks_are_independent :
    (∀ address buf_size : Nat, FLASH_SIZE ≤ address ∨ FLASH_SIZE < buf_size →
      flash_iface_read_ops address buf_size = none) ∧
    (∀ address buf_size : Nat, address < FLASH_SIZE → buf_size ≤ FLASH_SIZE →
      flash_iface_read_ops address buf_size =
        some (flash_iface_read_script address buf_size)) ∧
    flash_iface_read_ops 0xFFFFF 0x100000 =
      some (flash_iface_read_script 0xFFFFF 0x100000) ∧
    FLASH_SIZE < 0xFFFFF + 0x100000 := by
  refine ⟨?_, ?_, ?_, by norm_num [FLASH_SIZE]⟩
  · intro address buf_size hbad
    rw [flash_iface_read_ops, if_neg (by omega)]
  · intro address buf_size h1 h2
    rw [flash_iface_read_ops, if_pos ⟨h1, h2⟩]
  · rw [flash_iface_read_ops, if_pos (by norm_num [FLASH_SIZE])]

/-- Witness for C10 at a concrete rejected and a concrete accepted input. -/
theorem C10_witness :
    flash_iface_read_ops 0x100000 16 = none ∧
    flash_iface_read_ops 0 0x100001 = none ∧
    flash_iface_read_ops 0xFFFFF 0x100000 =
      some (flash_iface_read_script 0xFFFFF 0x100000) :=
  ⟨C10_read_precondition_checks_are_independent.1 0x100000 16
      (Or.inl (by norm_num [FLASH_SIZE])),
   C10_read_precondition_checks_are_independent.1 0 0x100001
      (Or.inr (by norm_num [FLASH_SIZE])),
   C10_read_precondition_checks_are_independent.2.2.1⟩

/-! ## Claim C5 -/

/-- C5: a flash read with `address < FLASH_SIZE` programs the 24-bit
command address registers with `(address - 1) mod 2^24` (the HI/MID/LO
bytes reassemble to exactly that value) and discards exactly one leading
byte (the single `rawRead 1` after selecting the read FIFO) before the
buffer-filling reads; a read at address 0 programs 0xFFFFFF. -/
theorem C5_read_starts_one_byte_early (address buf_size : Nat)
    (h : address < FLASH_SIZE) :
    read_start_address address = (address + (0x1000000 - 1)) % 0x1000000 ∧
    toU8 (read_start_address address / 0x10000) * 0x10000 +
      toU8 (read_start_address address / 0x100) * 0x100 +
      toU8 (read_start_address address) = read_start_address address ∧
    flash_iface_read_script address buf_size =
      [MstOp.writeReg REG_CMD_ADDR_HI (toU8 (read_start_address address / 0x10000)),
       MstOp.writeReg REG_CMD_ADDR_MID (toU8 (read_start_address address / 0x100)),
       MstOp.writeReg REG_CMD_ADDR_LO (toU8 (read_start_address address)),
       MstOp.writeReg REG_READ_OPCODE CMD_OPCODE_READ,
       MstOp.rawWrite 0x70,
       MstOp.rawRead 1] ++ read_chunk_ops buf_size ∧
    read_start_address 0 = 0xFFFFFF := by
  have hlt : read_start_address address < 0x1000000 :=
    Nat.mod_lt _ (by norm_num)
  refine ⟨?_, ?_, rfl, by norm_num [read_start_address, u32_sub1]⟩
  · have hsz : address < 0x100000 := h
    unfold read_start_address u32_sub1
    omega
  · unfold toU8
    omega

/-- Witness for C5 at address 0 (the wraparound case) with an 8-byte read. -/
theorem C5_witness :
    read_start_address 0 = (0 + (0x1000000 - 1)) % 0x1000000 ∧
    toU8 (read_start_address 0 / 0x10000) * 0x10000 +
      toU8 (read_start_address 0 / 0x100) * 0x100 +
      toU8 (read_start_address 0) = read_start_address 0 ∧
    flash_iface_read_script 0 8 =
      [MstOp.writeReg REG_CMD_ADDR_HI (toU8 (read_start_address 0 / 0x10000)),
       MstOp.writeReg REG_CMD_ADDR_MID (toU8 (read_start_address 0 / 0x100)),
       MstOp.writeReg REG_CMD_ADDR_LO (toU8 (read_start_address 0)),
       MstOp.writeReg REG_READ_OPCODE CMD_OPCODE_READ,
       MstOp.rawWrite 0x70,
       MstOp.rawRead 1] ++ read_chunk_ops 8 ∧
    read_start_address 0 = 0xFFFFFF :=
  C5_read_starts_one_byte_early 0 8 (by norm_num [FLASH_SIZE])

/-! ## Claim C6 -/

/-- C6: every page-write chunk programs `WRITE_LEN = chunk_size - 1` and
bursts exactly `chunk_size` bytes into the FIFO; a 256-byte remainder is
a single chunk with `WRITE_LEN = 0xFF` programmed exactly once, and a
1-byte remainder programs `WRITE_LEN = 0x00` with a 1-byte FIFO burst. -/
theorem C6_write_len_and_fifo_burst :
    (∀ address : Nat, ∀ data : List Nat, data ≠ [] →
      let chunk_size := if data.length > 256 then 256 else data.length
      flash_iface_write_ops address data =
        flash_iface_write_chunk_script address (data.take chunk_size)
          ++ flash_iface_write_ops (address + chunk_size) (data.drop chunk_size) ∧
      (data.take chunk_size).length = chunk_size ∧
      (flash_iface_write_chunk_script address (data.take chunk_size))[1]? =
        some (MstOp.writeReg REG_WRITE_LEN (toU8 (chunk_size - 1))) ∧
      (flash_iface_write_chunk_script address (data.take chunk_size))[6]? =
        some (MstOp.writeRegMulti REG_WRITE_FIFO (data.take chunk_size))) ∧
    (∀ address : Nat, ∀ data : List Nat, data.length = 256 →
      flash_iface_write_ops address data =
        flash_iface_write_chunk_script address data ∧
      countRegWrites (flash_iface_write_chunk_script address data) REG_WRITE_LEN = 1 ∧
      (flash_iface_write_chunk_script address data)[1]? =
        some (MstOp.writeReg REG_WRITE_LEN 0xFF)) ∧
    (∀ address : Nat, ∀ data : List Nat, data.length = 1 →
      flash_iface_write_ops address data =
        flash_iface_write_chunk_script address data ∧
      (flash_iface_write_chunk_script address data)[1]? =
        some (MstOp.writeReg REG_WRITE_LEN 0x00) ∧
      (flash_iface_write_chunk_script address data)[6]? =
        some (MstOp.writeRegMulti REG_WRITE_FIFO data) ∧
      data.length = 1) := by
  have hstep : ∀ address : Nat, ∀ data : List Nat, data ≠ [] →
      flash_iface_write_ops address data =
        flash_iface_write_chunk_script address
            (data.take (if data.length > 256 then 256 else data.length))
          ++ flash_iface_write_ops
              (address + (if data.length > 256 then 256 else data.length))
              (data.drop (if data.length > 256 then 256 else data.length)) := by
    intro address data hne
    rw [flash_iface_write_ops, dif_neg hne]
  have hlen : ∀ data : List Nat,
      (data.take (if data.length > 256 then 256 else data.length)).length =
        (if data.length > 256 then 256 else data.length) := by
    intro data
    rw [List.length_take]
    split <;> omega
  refine ⟨?_, ?_, ?_⟩
  · intro address data hne
    refine ⟨hstep address data hne, hlen data, ?_, ?_⟩
    · simp only [flash_iface_write_chunk_script, hlen data]
      rfl
    · rfl
  · intro address data h256
    have hne : data ≠ [] := by
      intro hnil; rw [hnil] at h256; simp at h256
    have htake : data.take (if data.length > 256 then 256 else data.length) = data := by
      rw [if_neg (by omega)]
      exact List.take_of_length_le (by omega)
    have hdrop : data.drop (if data.length > 256 then 256 else data.length) = [] := by
      rw [if_neg (by omega)]
      exact List.drop_of_length_le (by omega)
    have hrest : flash_iface_write_ops
        (address + (if data.length > 256 then 256 else data.length))
        (data.drop (if data.length > 256 then 256 else data.length)) = [] := by
      rw [hdrop, flash_iface_write_ops, dif_pos rfl]
    refine ⟨?_, ?_, ?_⟩
    · rw [hstep address data hne, hrest, htake, List.append_nil]
    · simp [flash_iface_write_chunk_script, countRegWrites, REG_WRITE_OPCODE,
            REG_WRITE_LEN, REG_CMD_ADDR_HI, REG_CMD_ADDR_MID, REG_CMD_ADDR_LO,
            REG_MCU_MODE, REG_WRITE_FIFO]
    · simp [flash_iface_write_chunk_script, h256, toU8]
  · intro address data h1
    have hne : data ≠ [] := by
      intro hnil; rw [hnil] at h1; simp at h1
    have htake : data.take (if data.length > 256 then 256 else data.length) = data := by
      rw [if_neg (by omega)]
      exact List.take_of_length_le (by omega)
    have hdrop : data.drop (if data.length > 256 then 256 else data.length) = [] := by
      rw [if_neg (by omega)]
      exact List.drop_of_length_le (by omega)
    have hrest : flash_iface_write_ops
        (address + (if data.length > 256 then 256 else data.length))
        (data.drop (if data.length > 256 then 256 else data.length)) = [] := by
      rw [hdrop, flash_iface_write_ops, dif_pos rfl]
    refine ⟨?_, ?_, rfl, h1⟩
    · rw [hstep address data hne, hrest, htake, List.append_nil]
    · simp [flash_iface_write_chunk_script, h1, toU8]

/-- Witness for C6: a full 256-byte chunk and a 1-byte chunk, concretely. -/
theorem C6_witness :
    (flash_iface_write_ops 0x10000 (List.replicate 256 0xA5) =
       flash_iface_write_chunk_script 0x10000 (List.replicate 256 0xA5) ∧
     countRegWrites (flash_iface_write_chunk_script 0x10000 (List.replicate 256 0xA5))
       REG_WRITE_LEN = 1 ∧
     (flash_iface_write_chunk_script 0x10000 (List.replicate 256 0xA5))[1]? =
       some (MstOp.writeReg REG_WRITE_LEN 0xFF)) ∧
    ((flash_iface_write_chunk_script 0xFF304 [0xAA])[1]? =
       some (MstOp.writeReg REG_WRITE_LEN 0x00) ∧
     (flash_iface_write_chunk_script 0xFF304 [0xAA])[6]? =
       some (MstOp.writeRegMulti REG_WRITE_FIFO [0xAA])) :=
  ⟨C6_write_len_and_fifo_burst.2.1 0x10000 (List.replicate 256 0xA5)
      (by rw [List.length_replicate]),
   ⟨(C6_write_len_and_fifo_burst.2.2 0xFF304 [0xAA] (by simp)).2.1,
    (C6_write_len_and_fifo_burst.2.2 0xFF304 [0xAA] (by simp)).2.2.1⟩⟩

/-! ## Claim C3 -/

/-- C3 counterexample: the claim fails for the page-write script.  At the
concrete chunk the code itself writes (the 5-byte flag record at
0xFF304), the first operation of the script is the `WRITE_OPCODE`
register write, so the 24-bit address bytes are NOT written before the
opcode register: `regWriteIdx` finds the opcode at index 0 and the
address HI byte only at index 2. -/
theorem C3_counterexample_page_write :
    addrBytesBefore (flash_iface_write_ops 0xFF304 flag_data)
      REG_WRITE_OPCODE = false ∧
    regWriteIdx (flash_iface_write_ops 0xFF304 flag_data)
      REG_WRITE_OPCODE = some 0 ∧
    regWriteIdx (flash_iface_write_ops 0xFF304 flag_data)
      REG_CMD_ADDR_HI = some 2 := by
  rw [flash_iface_write_ops_single 0xFF304 flag_data (by decide) (by decide)]
  refine ⟨by decide, by decide, by decide⟩

/-- C3 amended: in the read, sector-erase and block-erase register
scripts the 24-bit address bytes HI, MID, LO are written before the
opcode register and before the first ATTR write (and hence before the
ATTR start write); in the page-write script the address bytes are
written after the `WRITE_OPCODE` and `WRITE_LEN` registers, but still
before the FIFO load and before the `MCU_MODE` start write. -/
theorem C3_amended_address_byte_order :
    (∀ address buf_size : Nat,
      addrBytesBefore (flash_iface_read_script address buf_size)
        REG_READ_OPCODE = true) ∧
    (∀ address : Nat,
      addrBytesBefore (flash_iface_erase_sector_script address)
        REG_ERASE_OPCODE = true ∧
      addrBytesBefore (flash_iface_erase_sector_script address)
        REG_CMD_ATTR = true) ∧
    (∀ address : Nat,
      addrBytesBefore (flash_iface_erase_block_script address)
        REG_ERASE_OPCODE = true ∧
      addrBytesBefore (flash_iface_erase_block_script address)
        REG_CMD_ATTR = true) ∧
    (∀ address : Nat, ∀ chunk : List Nat,
      addrBytesBefore (flash_iface_write_chunk_script address chunk)
        REG_MCU_MODE = true ∧
      regWriteIdx (flash_iface_write_chunk_script address chunk)
        REG_WRITE_OPCODE = some 0) := by
  refine ⟨?_, ?_, ?_, ?_⟩
  · intro address buf_size
    simp [addrBytesBefore, regWriteIdx, flash_iface_read_script, List.findIdx?,
          REG_CMD_ADDR_HI, REG_CMD_ADDR_MID, REG_CMD_ADDR_LO, REG_READ_OPCODE]
  · intro address
    constructor <;>
      simp [addrBytesBefore, regWriteIdx, flash_iface_erase_sector_script,
            List.findIdx?, REG_CMD_ADDR_HI, REG_CMD_ADDR_MID, REG_CMD_ADDR_LO,
            REG_ERASE_OPCODE, REG_CMD_ATTR]
  · intro address
    constructor <;>
      simp [addrBytesBefore, regWriteIdx, flash_iface_erase_block_script,
            List.findIdx?, REG_CMD_ADDR_HI, REG_CMD_ADDR_MID, REG_CMD_ADDR_LO,
            REG_ERASE_OPCODE, REG_CMD_ATTR]
  · intro address chunk
    constructor <;>
      simp [addrBytesBefore, regWriteIdx, flash_iface_write_chunk_script,
            List.findIdx?, REG_CMD_ADDR_HI, REG_CMD_ADDR_MID, REG_CMD_ADDR_LO,
            REG_MCU_MODE, REG_WRITE_OPCODE, REG_WRITE_LEN, REG_WRITE_FIFO]

/-- Witness for C3 at concrete scripts. -/
theorem C3_amended_witness :
    addrBytesBefore (flash_iface_read_script 0x10000 0x70000)
      REG_READ_OPCODE = true ∧
    addrBytesBefore (flash_iface_erase_sector_script 0xFF000)
      REG_CMD_ATTR = true ∧
    addrBytesBefore (flash_iface_erase_block_script 0x80000)
      REG_ERASE_OPCODE = true ∧
    addrBytesBefore (flash_iface_write_chunk_script 0xFF304 flag_data)
      REG_MCU_MODE = true :=
  ⟨C3_amended_address_byte_order.1 0x10000 0x70000,
   (C3_amended_address_byte_order.2.1 0xFF000).2,
   (C3_amended_address_byte_order.2.2.1 0x80000).1,
   (C3_amended_address_byte_order.2.2.2 0xFF304 flag_data).1⟩

/-! ## Claim C4 -/

theorem poll_go_ok_iff (address mask expected T : Nat) (deadline : Timespec) :
    ∀ l : List PollSample,
      (mst_poll_register_go address mask expected T deadline l = PollResult.ok ↔
        ∃ i, i < l.length ∧ ((l.getD i pollDefault).value &&& mask = expected) ∧
          ∀ j, j < i → ¬((l.getD j pollDefault).value &&& mask = expected) ∧
            Timespec.le (l.getD j pollDefault).now deadline = true)
  | [] => by simp [mst_poll_register_go]
  | s :: rest => by
    rw [mst_poll_register_go]
    by_cases hm : s.value &&& mask = expected
    · rw [if_pos hm]
      constructor
      · intro _
        exact ⟨0, by simp, by simpa using hm, fun j hj => absurd hj (by omega)⟩
      · intro _
        rfl
    · rw [if_neg hm]
      by_cases hle : Timespec.le s.now deadline = true
      · rw [if_pos hle,
            poll_go_ok_iff address mask expected T deadline rest]
        constructor
        · rintro ⟨i, hi, hmi, hprev⟩
          refine ⟨i + 1, by simpa using hi, by simpa using hmi, ?_⟩
          intro j hj
          cases j with
          | zero => exact ⟨by simpa using hm, by simpa using hle⟩
          | succ j' =>
            have := hprev j' (by omega)
            simpa using this
        · rintro ⟨i, hi, hmi, hprev⟩
          cases i with
          | zero => exact absurd (by simpa using hmi) hm
          | succ i' =>
            refine ⟨i', by simpa using hi, by simpa using hmi, ?_⟩
            intro j hj
            have := hprev (j + 1) (by omega)
            simpa using this
      · rw [if_neg hle]
        constructor
        · intro hcontra
          exact absurd hcontra (by simp)
        · rintro ⟨i, hi, hmi, hprev⟩
          cases i with
          | zero => exact absurd (by simpa using hmi) hm
          | succ i' =>
            have := (hprev 0 (by omega)).2
            simp only [List.getD_cons_zero] at this
            exact absurd this hle

theorem poll_go_timeout_iff (address mask expected T : Nat)
    (deadline : Timespec) (a v T' e m : Nat) :
    ∀ l : List PollSample,
      (mst_poll_register_go address mask expected T deadline l =
          PollResult.timeoutError a v T' e m ↔
        (a = address ∧ m = mask ∧ e = expected ∧ T' = T) ∧
        ∃ i, i < l.length ∧ (l.getD i pollDefault).value = v ∧
          ¬((l.getD i pollDefault).value &&& mask = expected) ∧
          Timespec.le (l.getD i pollDefault).now deadline = false ∧
          ∀ j, j < i → ¬((l.getD j pollDefault).value &&& mask = expected) ∧
            Timespec.le (l.getD j pollDefault).now deadline = true)
  | [] => by simp [mst_poll_register_go]
  | s :: rest => by
    rw [mst_poll_register_go]
    by_cases hm : s.value &&& mask = expected
    · rw [if_pos hm]
      constructor
      · intro hcontra
        exact absurd hcontra (by simp)
      · rintro ⟨_, i, hi, hvi, hmi, hlei, hprev⟩
        cases i with
        | zero => exact absurd (by simpa using hm) (by simpa using hmi)
        | succ i' =>
          have := (hprev 0 (by omega)).1
          exact absurd (by simpa using hm) (by simpa using this)
    · rw [if_neg hm]
      by_cases hle : Timespec.le s.now deadline = true
      · rw [if_pos hle,
            poll_go_timeout_iff address mask expected T deadline a v T' e m rest]
        constructor
        · rintro ⟨heq, i, hi, hvi, hmi, hlei, hprev⟩
          refine ⟨heq, i + 1, by simpa using hi, by simpa using hvi,
                  by simpa using hmi, by simpa using hlei, ?_⟩
          intro j hj
          cases j with
          | zero => exact ⟨by simpa using hm, by simpa using hle⟩
          | succ j' =>
            have := hprev j' (by omega)
            simpa using this
        · rintro ⟨heq, i, hi, hvi, hmi, hlei, hprev⟩
          cases i with
          | zero =>
            simp only [List.getD_cons_zero] at hlei
            exact absurd hle (by rw [hlei]; decide)
          | succ i' =>
            refine ⟨heq, i', by simpa using hi, by simpa using hvi,
                    by simpa using hmi, by simpa using hlei, ?_⟩
            intro j hj
            have := hprev (j + 1) (by omega)
            simpa using this
      · rw [if_neg hle]
        rw [Bool.not_eq_true] at hle
        constructor
        · intro heq
          cases heq
          exact ⟨⟨rfl, rfl, rfl, rfl⟩, 0, by simp, by simp,
                 by simpa using hm, by simpa using hle,
                 fun j hj => absurd hj (by omega)⟩
        · rintro ⟨⟨ha, hmm, he, hT⟩, i, hi, hvi, hmi, hlei, hprev⟩
          cases i with
          | zero =>
            simp only [List.getD_cons_zero] at hvi
            rw [ha, hmm, he, hT, hvi]
          | succ i' =>
            have := (hprev 0 (by omega)).2
            simp only [List.getD_cons_zero] at this
            rw [this] at hle
            exact absurd hle (by decide)

/-- C4: `mst_poll_register` succeeds iff some polled register value `v`
satisfies `(v & mask) == expected` while every earlier poll both
mismatched and was observed (by its clock sample) on or before the
absolute monotonic deadline — the deadline being computed exactly once
from the first clock reading as `first.now + timeout`; and it returns a
timeout error iff the deadline elapsed without a match, the error
carrying the register address, last read value, mask, expected value and
the timeout duration in seconds. -/
theorem C4_poll_register_success_and_timeout (address mask expected timeoutSeconds : Nat)
    (first : PollSample) (rest : List PollSample)
    (a v T' e m : Nat) :
    (mst_poll_register address mask expected timeoutSeconds first rest =
        PollResult.ok ↔
      ∃ i, i < (first :: rest).length ∧
        (((first :: rest).getD i pollDefault).value &&& mask = expected) ∧
        ∀ j, j < i →
          ¬(((first :: rest).getD j pollDefault).value &&& mask = expected) ∧
          Timespec.le ((first :: rest).getD j pollDefault).now
            ⟨first.now.sec + timeoutSeconds, first.now.nsec⟩ = true) ∧
    (mst_poll_register address mask expected timeoutSeconds first rest =
        PollResult.timeoutError a v T' e m ↔
      (a = address ∧ m = mask ∧ e = expected ∧ T' = timeoutSeconds) ∧
      ∃ i, i < (first :: rest).length ∧
        ((first :: rest).getD i pollDefault).value = v ∧
        ¬(((first :: rest).getD i pollDefault).value &&& mask = expected) ∧
        Timespec.le ((first :: rest).getD i pollDefault).now
          ⟨first.now.sec + timeoutSeconds, first.now.nsec⟩ = false ∧
        ∀ j, j < i →
          ¬(((first :: rest).getD j pollDefault).value &&& mask = expected) ∧
          Timespec.le ((first :: rest).getD j pollDefault).now
            ⟨first.now.sec + timeoutSeconds, first.now.nsec⟩ = true) :=
  ⟨poll_go_ok_iff address mask expected timeoutSeconds
      ⟨first.now.sec + timeoutSeconds, first.now.nsec⟩ (first :: rest),
   poll_go_timeout_iff address mask expected timeoutSeconds
      ⟨first.now.sec + timeoutSeconds, first.now.nsec⟩ a v T' e m (first :: rest)⟩

/-- Witness for C4: a concrete trace (erase-busy poll on `CMD_ATTR`,
10 s timeout) where the second read matches, and a concrete trace where
the deadline elapses first. -/
theorem C4_witness :
    (mst_poll_register REG_CMD_ATTR CMD_ERASE_BUSY 0 10
        ⟨⟨5, 0⟩, 0xB9⟩ [⟨⟨5, 500000⟩, 0xB8⟩] = PollResult.ok ↔
      ∃ i, i < 2 ∧
        (([⟨⟨5, 0⟩, 0xB9⟩, ⟨⟨5, 500000⟩, 0xB8⟩].getD i pollDefault).value &&& 1 = 0) ∧
        ∀ j, j < i →
          ¬(([⟨⟨5, 0⟩, 0xB9⟩, ⟨⟨5, 500000⟩, 0xB8⟩].getD j pollDefault).value &&& 1 = 0) ∧
          Timespec.le ([⟨⟨5, 0⟩, 0xB9⟩, ⟨⟨5, 500000⟩, 0xB8⟩].getD j pollDefault).now
            ⟨15, 0⟩ = true) ∧
    (mst_poll_register REG_CMD_ATTR CMD_ERASE_BUSY 0 10
        ⟨⟨5, 0⟩, 0xB9⟩ [⟨⟨16, 0⟩, 0xB9⟩] =
        PollResult.timeoutError REG_CMD_ATTR 0xB9 10 0 CMD_ERASE_BUSY) :=
  ⟨(C4_poll_register_success_and_timeout REG_CMD_ATTR CMD_ERASE_BUSY 0 10
      ⟨⟨5, 0⟩, 0xB9⟩ [⟨⟨5, 500000⟩, 0xB8⟩] 0 0 0 0 0).1,
   ((C4_poll_register_success_and_timeout REG_CMD_ATTR CMD_ERASE_BUSY 0 10
      ⟨⟨5, 0⟩, 0xB9⟩ [⟨⟨16, 0⟩, 0xB9⟩] REG_CMD_ATTR 0xB9 10 0 CMD_ERASE_BUSY).2.mpr
     ⟨⟨rfl, rfl, rfl, rfl⟩, 1, by decide, by decide, by decide, by decide,
      fun j hj => by
        interval_cases j
        exact ⟨by decide, by decide⟩⟩)⟩

/-! ## Footprint lemmas for the device semantics -/

theorem runOps_nil (s : FlashState) : runOps s [] = s := rfl

theorem runOps_append (s : FlashState) (l1 l2 : List MstOp) :
    runOps s (l1 ++ l2) = runOps (runOps s l1) l2 := by
  simp only [runOps, List.foldl_append]

theorem runOps_read_chunk_ops (n : Nat) : ∀ s : FlashState, runOps s (read_chunk_ops n) = s := by
  induction n using Nat.strong_induction_on with
  | _ n ih =>
    intro s
    rw [read_chunk_ops]
    split
    · rfl
    · exact ih _ (by split <;> omega) s

theorem read_script_preserves_flash (address buf_size : Nat) (s : FlashState) :
    (runOps s (flash_iface_read_script address buf_size)).flash = s.flash := by
  obtain ⟨flash0, hi0, mid0, lo0, eo0, wl0, fifo0⟩ := s
  rw [flash_iface_read_script, runOps_append, runOps_read_chunk_ops]
  simp [runOps, applyOp, REG_CMD_ADDR_HI, REG_CMD_ADDR_MID, REG_CMD_ADDR_LO,
        REG_READ_OPCODE, REG_ERASE_OPCODE, REG_WRITE_LEN, REG_CMD_ATTR, REG_MCU_MODE]

theorem erase_block_script_flash_outside (address : Nat)
    (halign : address % 0x10000 = 0) (hlt : address < 0x1000000)
    (s : FlashState) (x : Nat)
    (hx : x < address ∨ address + 0x10000 ≤ x) :
    (runOps s (flash_iface_erase_block_script address)).flash x = s.flash x := by
  obtain ⟨flash0, hi0, mid0, lo0, eo0, wl0, fifo0⟩ := s
  simp only [flash_iface_erase_block_script, runOps, List.foldl_cons, List.foldl_nil]
  simp only [applyOp, FlashState.cmdAddr, toU8,
             REG_CMD_ADDR_HI, REG_CMD_ADDR_MID, REG_CMD_ADDR_LO,
             REG_ERASE_OPCODE, REG_WRITE_LEN, REG_CMD_ATTR, REG_MCU_MODE,
             CMD_ERASE_BUSY, CMD_OPCODE_ERASE_SECTOR, CMD_OPCODE_ERASE_BLOCK,
             SECTOR_SIZE, BLOCK_SIZE]
  norm_num
  intro hc
  exfalso
  omega

theorem erase_sector_script_flash_outside (address : Nat)
    (halign : address % 0x1000 = 0) (hlt : address < 0x1000000)
    (s : FlashState) (x : Nat)
    (hx : x < address ∨ address + 0x1000 ≤ x) :
    (runOps s (flash_iface_erase_sector_script address)).flash x = s.flash x := by
  obtain ⟨flash0, hi0, mid0, lo0, eo0, wl0, fifo0⟩ := s
  simp only [flash_iface_erase_sector_script, runOps, List.foldl_cons, List.foldl_nil]
  simp only [applyOp, FlashState.cmdAddr, toU8,
             REG_CMD_ADDR_HI, REG_CMD_ADDR_MID, REG_CMD_ADDR_LO,
             REG_ERASE_OPCODE, REG_WRITE_LEN, REG_CMD_ATTR, REG_MCU_MODE,
             CMD_ERASE_BUSY, CMD_OPCODE_ERASE_SECTOR, CMD_OPCODE_ERASE_BLOCK,
             SECTOR_SIZE, BLOCK_SIZE]
  norm_num
  intro hc
  exfalso
  omega

theorem write_chunk_script_flash_outside (address : Nat) (chunk : List Nat)
    (s : FlashState) (x : Nat)
    (hne : 1 ≤ chunk.length) (hle : chunk.length ≤ 256)
    (haddr : address + chunk.length ≤ 0x1000000)
    (hx : x < address ∨ address + chunk.length ≤ x) :
    (runOps s (flash_iface_write_chunk_script address chunk)).flash x = s.flash x := by
  obtain ⟨flash0, hi0, mid0, lo0, eo0, wl0, fifo0⟩ := s
  simp only [flash_iface_write_chunk_script, runOps, List.foldl_cons, List.foldl_nil]
  simp only [applyOp, FlashState.cmdAddr, toU8,
             REG_CMD_ADDR_HI, REG_CMD_ADDR_MID, REG_CMD_ADDR_LO,
             REG_ERASE_OPCODE, REG_WRITE_LEN, REG_CMD_ATTR, REG_MCU_MODE,
             REG_WRITE_OPCODE, REG_WRITE_FIFO, MCU_MODE_ISP, MCU_MODE_WRITE_BUSY,
             CMD_ERASE_BUSY]
  norm_num
  rw [if_neg (by decide)]
  dsimp only
  rw [if_neg]
  omega

theorem write_ops_flash_outside (n : Nat) :
    ∀ data : List Nat, data.length ≤ n → ∀ address : Nat, ∀ s : FlashState, ∀ x : Nat,
      address + data.length ≤ 0x1000000 →
      (x < address ∨ address + data.length ≤ x) →
      (runOps s (flash_iface_write_ops address data)).flash x = s.flash x := by
  induction n with
  | zero =>
    intro data hlen address s x _ _
    have : data = [] := List.eq_nil_of_length_eq_zero (by omega)
    rw [this, flash_iface_write_ops_nil, runOps_nil]
  | succ n ih =>
    intro data hlen address s x haddr hx
    by_cases hne : data = []
    · rw [hne, flash_iface_write_ops_nil, runOps_nil]
    · have hpos : 1 ≤ data.length := by
        have := List.length_pos.mpr hne
        omega
      rw [flash_iface_write_ops_step address data hne, runOps_append]
      have hc1 : 1 ≤ (if data.length > 256 then 256 else data.length) := by
        split <;> omega
      have hc2 : (if data.length > 256 then 256 else data.length) ≤ data.length := by
        split <;> omega
      have htlen : (data.take (if data.length > 256 then 256 else data.length)).length =
          (if data.length > 256 then 256 else data.length) := by
        rw [List.length_take]
        omega
      have hdlen : (data.drop (if data.length > 256 then 256 else data.length)).length =
          data.length - (if data.length > 256 then 256 else data.length) := by
        rw [List.length_drop]
      rw [ih (data.drop _) (by omega) _ _ x (by omega) (by rw [hdlen]; omega)]
      exact write_chunk_script_flash_outside address _ s x
        (by omega) (by rw [htlen]; split <;> omega) (by rw [htlen]; omega)
        (by rw [htlen]; omega)

theorem runOps_five_phases_flash_outside
    (A B C D E : List MstOp) (s : FlashState) (x : Nat)
    (hA : ∀ s' : FlashState, (runOps s' A).flash x = s'.flash x)
    (hB : ∀ s' : FlashState, (runOps s' B).flash x = s'.flash x)
    (hC : ∀ s' : FlashState, (runOps s' C).flash x = s'.flash x)
    (hD : ∀ s' : FlashState, (runOps s' D).flash x = s'.flash x)
    (hE : ∀ s' : FlashState, (runOps s' E).flash x = s'.flash x) :
    (runOps s (A ++ (B ++ (C ++ (D ++ E))))).flash x = s.flash x := by
  rw [runOps_append, runOps_append, runOps_append, runOps_append,
      hE, hD, hC, hB, hA]

theorem runOps_three_phases_flash_outside
    (A B C : List MstOp) (s : FlashState) (x : Nat)
    (hA : ∀ s' : FlashState, (runOps s' A).flash x = s'.flash x)
    (hB : ∀ s' : FlashState, (runOps s' B).flash x = s'.flash x)
    (hC : ∀ s' : FlashState, (runOps s' C).flash x = s'.flash x) :
    (runOps s (A ++ (B ++ C))).flash x = s.flash x := by
  rw [runOps_append, runOps_append, hC, hB, hA]

/-! ## Claim C2 -/

/-- C2: target selection — `active_bank == User1` targets User2 (base
0x80000, flag 0xFF304), anything else (User2, Boot) targets User1 (base
0x10000, flag 0xFE304) — and, running the complete operation trace of
any `write_firmware` call through the flash-device semantics, no byte of
the active user bank's image region or of its 5-byte flag record is ever
modified (by erase or by program), from any starting flash state. -/
theorem C2_active_bank_never_touched (active_bank : FlashBank) (fw rb : List Nat)
    (t : WriteFwTrace)
    (hlen : fw.length = FLASH_USER_SIZE)
    (ht : fu_realtek_mst_device_write_firmware active_bank fw rb = some t) :
    ((active_bank = FlashBank.user1 →
        target_base active_bank = FLASH_USER2_ADDR ∧
        target_flag active_bank = FLASH_FLAG2_ADDR) ∧
     (active_bank ≠ FlashBank.user1 →
        target_base active_bank = FLASH_USER1_ADDR ∧
        target_flag active_bank = FLASH_FLAG1_ADDR)) ∧
    ∀ (s : FlashState) (x : Nat), inActiveUserRegion active_bank x →
      (runOps s t.allOps).flash x = s.flash x := by
  constructor
  · constructor
    · intro h
      subst h
      exact ⟨rfl, rfl⟩
    · intro h
      rw [target_base, if_neg h, target_flag, if_neg h]
      exact ⟨rfl, rfl⟩
  · intro s x hx
    have hC : ∀ (a n : Nat) (s' : FlashState),
        (runOps s' (flash_iface_read_script a n)).flash x = s'.flash x := by
      intro a n s'
      rw [read_script_preserves_flash]
    have husz : fw.length = 0x70000 := by rw [hlen, FLASH_USER_SIZE]
    by_cases heq : rb = fw
    · rw [heq] at ht
      rw [write_firmware_eq_verified active_bank fw hlen,
          Option.some.injEq] at ht
      subst ht
      cases active_bank with
      | user1 =>
        simp only [inActiveUserRegion, FLASH_USER1_ADDR, FLASH_USER_SIZE,
                   FLASH_FLAG1_ADDR] at hx
        simp only [WriteFwTrace.allOps, target_base, target_flag, SECTOR_SIZE,
                   FLASH_USER2_ADDR, FLASH_FLAG2_ADDR, reduceIte]
        norm_num
        refine runOps_five_phases_flash_outside _ _ _ _ _ s x
          (fun s' => erase_block_script_flash_outside 0x80000 (by norm_num)
            (by norm_num) s' x (by omega))
          (fun s' => write_ops_flash_outside fw.length fw (le_refl _) 0x80000 s' x
            (by omega) (by omega))
          (hC _ _)
          (fun s' => erase_sector_script_flash_outside 0xFF000 (by norm_num)
            (by norm_num) s' x (by omega))
          (fun s' => write_ops_flash_outside 5 flag_data (by norm_num [flag_data])
            0xFF304 s' x (by norm_num [flag_data]) (by norm_num [flag_data]; omega))
      | user2 =>
        simp only [inActiveUserRegion, FLASH_USER2_ADDR, FLASH_USER_SIZE,
                   FLASH_FLAG2_ADDR] at hx
        simp only [WriteFwTrace.allOps, target_base, target_flag, SECTOR_SIZE,
                   FLASH_USER1_ADDR, FLASH_FLAG1_ADDR, reduceIte,
                   reduceCtorEq]
        norm_num
        refine runOps_five_phases_flash_outside _ _ _ _ _ s x
          (fun s' => erase_block_script_flash_outside 0x10000 (by norm_num)
            (by norm_num) s' x (by omega))
          (fun s' => write_ops_flash_outside fw.length fw (le_refl _) 0x10000 s' x
            (by omega) (by omega))
          (hC _ _)
          (fun s' => erase_sector_script_flash_outside 0xFE000 (by norm_num)
            (by norm_num) s' x (by omega))
          (fun s' => write_ops_flash_outside 5 flag_data (by norm_num [flag_data])
            0xFE304 s' x (by norm_num [flag_data]) (by norm_num [flag_data]; omega))
      | boot => exact absurd hx (by simp [inActiveUserRegion])
      | invalid => exact absurd hx (by simp [inActiveUserRegion])
    · rw [write_firmware_eq_mismatch active_bank fw rb hlen heq,
          Option.some.injEq] at ht
      subst ht
      cases active_bank with
      | user1 =>
        simp only [inActiveUserRegion, FLASH_USER1_ADDR, FLASH_USER_SIZE,
                   FLASH_FLAG1_ADDR] at hx
        simp only [WriteFwTrace.allOps, target_base, target_flag,
                   FLASH_USER2_ADDR, reduceIte]
        norm_num
        refine runOps_three_phases_flash_outside _ _ _ s x
          (fun s' => erase_block_script_flash_outside 0x80000 (by norm_num)
            (by norm_num) s' x (by omega))
          (fun s' => write_ops_flash_outside fw.length fw (le_refl _) 0x80000 s' x
            (by omega) (by omega))
          (hC _ _)
      | user2 =>
        simp only [inActiveUserRegion, FLASH_USER2_ADDR, FLASH_USER_SIZE,
                   FLASH_FLAG2_ADDR] at hx
        simp only [WriteFwTrace.allOps, target_base, target_flag,
                   FLASH_USER1_ADDR, reduceIte, reduceCtorEq]
        norm_num
        refine runOps_three_phases_flash_outside _ _ _ s x
          (fun s' => erase_block_script_flash_outside 0x10000 (by norm_num)
            (by norm_num) s' x (by omega))
          (fun s' => write_ops_flash_outside fw.length fw (le_refl _) 0x10000 s' x
            (by omega) (by omega))
          (hC _ _)
      | boot => exact absurd hx (by simp [inActiveUserRegion])
      | invalid => exact absurd hx (by simp [inActiveUserRegion])

/-- Witness for C2: a successful update with User1 active, on the
concrete 0x70000-byte blob of 0xA5. -/
theorem C2_witness :
    ((FlashBank.user1 = FlashBank.user1 →
        target_base FlashBank.user1 = FLASH_USER2_ADDR ∧
        target_flag FlashBank.user1 = FLASH_FLAG2_ADDR) ∧
     (FlashBank.user1 ≠ FlashBank.user1 →
        target_base FlashBank.user1 = FLASH_USER1_ADDR ∧
        target_flag FlashBank.user1 = FLASH_FLAG1_ADDR)) ∧
    ∀ (s : FlashState) (x : Nat), inActiveUserRegion FlashBank.user1 x →
      (runOps s (WriteFwTrace.allOps
        ⟨flash_iface_erase_block_script (target_base FlashBank.user1),
         flash_iface_write_ops (target_base FlashBank.user1) sampleFirmware,
         flash_iface_read_script (target_base FlashBank.user1) FLASH_USER_SIZE,
         flash_iface_erase_sector_script
           (target_flag FlashBank.user1 / SECTOR_SIZE * SECTOR_SIZE),
         flash_iface_write_ops (target_flag FlashBank.user1) flag_data,
         none⟩)).flash x = s.flash x :=
  C2_active_bank_never_touched FlashBank.user1 sampleFirmware sampleFirmware _
    (by rw [sampleFirmware, List.length_replicate])
    (write_firmware_eq_verified FlashBank.user1 sampleFirmware
      (by rw [sampleFirmware, List.length_replicate]))

/-! ## Claim C7 -/

/-- C7: whenever the verify read-back differs from the firmware blob in
any byte, `write_firmware` fails with the WRITE error
"flash contents after write do not match firmware image"; the trace
contains no flag-sector erase and no flag-record write, and it consists
of exactly one erase phase, one write phase and one verify phase (no
retry). -/
theorem C7_verify_mismatch_fails_without_flag_rewrite
    (active_bank : FlashBank) (fw rb : List Nat)
    (hlen : fw.length = FLASH_USER_SIZE) (hrb : rb.length = FLASH_USER_SIZE)
    (hne : rb ≠ fw) :
    ∃ t : WriteFwTrace,
      fu_realtek_mst_device_write_firmware active_bank fw rb = some t ∧
      t.error = some (MstError.writeError
        "flash contents after write do not match firmware image") ∧
      t.flagEraseOps = [] ∧
      t.flagWriteOps = [] ∧
      t.allOps = t.eraseOps ++ t.writeOps ++ t.verifyOps ∧
      t.eraseOps = flash_iface_erase_block_script (target_base active_bank) ∧
      t.writeOps = flash_iface_write_ops (target_base active_bank) fw ∧
      t.verifyOps = flash_iface_read_script (target_base active_bank) FLASH_USER_SIZE := by
  refine ⟨_, write_firmware_eq_mismatch active_bank fw rb hlen hne,
          rfl, rfl, rfl, ?_, rfl, rfl, rfl⟩
  simp [WriteFwTrace.allOps]

/-- Witness for C7: User2 active, all-0xA5 firmware, all-zero read-back. -/
theorem C7_witness :
    ∃ t : WriteFwTrace,
      fu_realtek_mst_device_write_firmware FlashBank.user2 sampleFirmware
        (List.replicate FLASH_USER_SIZE 0x00) = some t ∧
      t.error = some (MstError.writeError
        "flash contents after write do not match firmware image") ∧
      t.flagEraseOps = [] ∧
      t.flagWriteOps = [] ∧
      t.allOps = t.eraseOps ++ t.writeOps ++ t.verifyOps ∧
      t.eraseOps = flash_iface_erase_block_script (target_base FlashBank.user2) ∧
      t.writeOps = flash_iface_write_ops (target_base FlashBank.user2) sampleFirmware ∧
      t.verifyOps = flash_iface_read_script (target_base FlashBank.user2) FLASH_USER_SIZE :=
  C7_verify_mismatch_fails_without_flag_rewrite FlashBank.user2 sampleFirmware
    (List.replicate FLASH_USER_SIZE 0x00)
    (by rw [sampleFirmware, List.length_replicate])
    (by rw [List.length_replicate])
    (fun h => by
      rw [sampleFirmware] at h
      have h0 := List.replicate_right_injective
        (show FLASH_USER_SIZE ≠ 0 by norm_num [FLASH_USER_SIZE]) h
      exact absurd h0 (by norm_num))

/-! ## Claim C8 -/

/-- C8: in `attach`, when the first `MCU_MODE` read has the ISP bit set,
the reset request writes `0xEE` with its read value OR 2 and its write
error is ignored (the outcome is invariant under whether that write
succeeded); after the 1-second sleep, if the ISP bit is still set the
function fails with NEEDS_USER_ACTION
"device failed to reset when requested" and adds the NEEDS_SHUTDOWN
flag; when the ISP bit was clear initially, no reset is attempted and
attach succeeds (clearing IS_BOOTLOADER and reporting IDLE). -/
theorem C8_attach_reset_protocol (inp : AttachInputs) :
    (∀ b : Bool,
      fu_realtek_mst_device_attach { inp with eeWriteOk := b } =
        fu_realtek_mst_device_attach inp) ∧
    (inp.mcuMode1 &&& MCU_MODE_ISP ≠ 0 →
      (fu_realtek_mst_device_attach inp).resetRequested = true ∧
      (fu_realtek_mst_device_attach inp).eeWritten = some (inp.eeValue ||| 2) ∧
      (fu_realtek_mst_device_attach inp).sleptUs = 1000000) ∧
    (inp.mcuMode1 &&& MCU_MODE_ISP ≠ 0 →
      inp.mcuMode2 &&& MCU_MODE_ISP = MCU_MODE_ISP →
      (fu_realtek_mst_device_attach inp).error =
        some (MstError.needsUserAction "device failed to reset when requested") ∧
      (fu_realtek_mst_device_attach inp).needsShutdownAdded = true ∧
      (fu_realtek_mst_device_attach inp).isBootloaderCleared = false) ∧
    (inp.mcuMode1 &&& MCU_MODE_ISP ≠ 0 →
      ¬(inp.mcuMode2 &&& MCU_MODE_ISP = MCU_MODE_ISP) →
      (fu_realtek_mst_device_attach inp).error = none ∧
      (fu_realtek_mst_device_attach inp).isBootloaderCleared = true ∧
      (fu_realtek_mst_device_attach inp).statusIdleSet = true) ∧
    (inp.mcuMode1 &&& MCU_MODE_ISP = 0 →
      (fu_realtek_mst_device_attach inp).resetRequested = false ∧
      (fu_realtek_mst_device_attach inp).eeWritten = none ∧
      (fu_realtek_mst_device_attach inp).error = none ∧
      (fu_realtek_mst_device_attach inp).isBootloaderCleared = true ∧
      (fu_realtek_mst_device_attach inp).statusIdleSet = true) := by
  refine ⟨?_, ?_, ?_, ?_, ?_⟩
  · intro b
    cases inp
    rfl
  · intro h1
    rw [fu_realtek_mst_device_attach, if_pos h1]
    by_cases h2 : inp.mcuMode2 &&& MCU_MODE_ISP = MCU_MODE_ISP
    · rw [if_pos h2]
      exact ⟨rfl, rfl, rfl⟩
    · rw [if_neg h2]
      exact ⟨rfl, rfl, rfl⟩
  · intro h1 h2
    rw [fu_realtek_mst_device_attach, if_pos h1, if_pos h2]
    exact ⟨rfl, rfl, rfl⟩
  · intro h1 h2
    rw [fu_realtek_mst_device_attach, if_pos h1, if_neg h2]
    exact ⟨rfl, rfl, rfl⟩
  · intro h1
    rw [fu_realtek_mst_device_attach, if_neg (by omega)]
    exact ⟨rfl, rfl, rfl, rfl, rfl⟩

/-- Witness for C8: the E6 scenario — device stays in ISP mode
(`MCU_MODE & 0x80 == 0x80`) after the reset request. -/
theorem C8_witness :
    (fu_realtek_mst_device_attach ⟨0x80, 0x10, false, 0x80⟩).error =
      some (MstError.needsUserAction "device failed to reset when requested") ∧
    (fu_realtek_mst_device_attach ⟨0x80, 0x10, false, 0x80⟩).needsShutdownAdded = true ∧
    (fu_realtek_mst_device_attach ⟨0x80, 0x10, false, 0x80⟩).isBootloaderCleared = false :=
  (C8_attach_reset_protocol ⟨0x80, 0x10, false, 0x80⟩).2.2.1
    (by decide) (by decide)

/-! ## Claim C9 -/

/-- C9: after a successful `setup`/`reload`, UPDATABLE is set iff the
decoded dual-bank status is enabled with mode Diff; with an active user
bank the version is published as "{major}.{minor}" from that bank's
pair; with the boot bank active the version stays unset while UPDATABLE
remains set; in every other case the state pre-cleared at entry
(UPDATABLE removed, active_bank Invalid, version cleared) is returned
unchanged, without error. -/
theorem C9_probe_version_state (response : List Nat) (s0 : ProbeState) :
    ((fu_realtek_mst_device_probe_version response s0).updatable = true ↔
      ∃ bank u1 u2, fu_realtek_mst_device_get_dual_bank_info response =
        DualBankDecode.enabled DUAL_BANK_DIFF bank u1 u2) ∧
    (∀ bank u1 u2,
      fu_realtek_mst_device_get_dual_bank_info response =
        DualBankDecode.enabled DUAL_BANK_DIFF bank u1 u2 →
      (bank = 1 → fu_realtek_mst_device_probe_version response s0 =
        ProbeState.mk true FlashBank.user1 (some (versionString u1))) ∧
      (bank = 2 → fu_realtek_mst_device_probe_version response s0 =
        ProbeState.mk true FlashBank.user2 (some (versionString u2))) ∧
      (bank = 0 → fu_realtek_mst_device_probe_version response s0 =
        ProbeState.mk true FlashBank.boot none)) ∧
    ((fu_realtek_mst_device_get_dual_bank_info response = DualBankDecode.notEnabled ∨
      ∃ mode bank u1 u2, mode ≠ DUAL_BANK_DIFF ∧
        fu_realtek_mst_device_get_dual_bank_info response =
          DualBankDecode.enabled mode bank u1 u2) →
      fu_realtek_mst_device_probe_version response s0 =
        ProbeState.mk false FlashBank.invalid none) := by
  refine ⟨?_, ?_, ?_⟩
  · cases hd : fu_realtek_mst_device_get_dual_bank_info response with
    | notEnabled =>
      simp only [fu_realtek_mst_device_probe_version, hd]
      constructor
      · intro hc
        exact absurd hc (by decide)
      · rintro ⟨bank, u1, u2, hcontra⟩
        exact absurd hcontra (by intro hc; cases hc)
    | enabled mode bank u1 u2 =>
      simp only [fu_realtek_mst_device_probe_version, hd]
      by_cases hm : mode = DUAL_BANK_DIFF
      · subst hm
        rw [if_neg (by simp)]
        constructor
        · intro _
          exact ⟨bank, u1, u2, rfl⟩
        · intro _
          by_cases hb1 : bank = 1
          · rw [if_pos hb1]
          · rw [if_neg hb1]
            by_cases hb2 : bank = 2
            · rw [if_pos hb2]
            · rw [if_neg hb2]
      · rw [if_pos hm]
        constructor
        · intro hc
          exact absurd hc (by decide)
        · rintro ⟨bank', u1', u2', hcontra⟩
          cases hcontra
          exact absurd rfl hm
  · intro bank u1 u2 hd
    simp only [fu_realtek_mst_device_probe_version, hd]
    rw [if_neg (by simp)]
    refine ⟨?_, ?_, ?_⟩
    · intro hb
      subst hb
      rfl
    · intro hb
      subst hb
      rfl
    · intro hb
      subst hb
      rfl
  · intro hcase
    cases hcase with
    | inl hd => simp only [fu_realtek_mst_device_probe_version, hd]
    | inr hex =>
      obtain ⟨mode, bank, u1, u2, hm, hd⟩ := hex
      simp only [fu_realtek_mst_device_probe_version, hd]
      rw [if_pos hm]

/-- Witness for C9: the E1 scenario — response
`CA 09 01 01 02 02 05 03 07 00 00` decodes to enabled/Diff/User2 with
User2 version pair (3, 7), so the published state is UPDATABLE with
active bank User2 and version "3.7"; the pre-existing state is
overwritten. -/
theorem C9_witness :
    fu_realtek_mst_device_probe_version
      [0xCA, 0x09, 0x01, 0x01, 0x02, 0x02, 0x05, 0x03, 0x07, 0x00, 0x00]
      (ProbeState.mk false FlashBank.boot (some "9.9")) =
      ProbeState.mk true FlashBank.user2 (some (versionString (3, 7))) :=
  ((C9_probe_version_state
      [0xCA, 0x09, 0x01, 0x01, 0x02, 0x02, 0x05, 0x03, 0x07, 0x00, 0x00]
      (ProbeState.mk false FlashBank.boot (some "9.9"))).2.1 2 (2, 5) (3, 7)
    (by decide)).2.1 rfl

end RealtekMst
